import Mathlib

/-!
Shallow embedding of the Jollibee BeeLoyalty core transaction engine
(`jollibee_service.py`, `elasticsearch_client.py`, `app.py`).

Money amounts (prices, order totals, annual spending) are modelled as
rationals, point balances as integers, counters as naturals.  Python's
`int(x)` conversion (truncation toward zero) is `pyTrunc`.  Wall-clock
timestamps are passed in as a rational `now` parameter.
-/

/-- Python `int(q)`: truncation toward zero. -/
def pyTrunc (q : ℚ) : Int :=
  if 0 ≤ q then ⌊q⌋ else ⌈q⌉

/-- One order line: `{"name": ..., "price": ..., "quantity": ...}`. -/
structure OrderItem where
  name : String
  price : ℚ
  quantity : ℕ
deriving Repr, DecidableEq

/-- `sum(item['price'] * item['quantity'] for item in items)` from
`create_transaction` / `create_bulk_transactions`. -/
def order_total (items : List OrderItem) : ℚ :=
  (items.map (fun i => i.price * (i.quantity : ℚ))).sum

/-- The tier-multiplier dictionary lookup
`{"BeeBuddy": 1.0, "BeeFan": 1.2, "BeeElite": 1.5}.get(customer_tier, 1.0)`. -/
def multipliers (customer_tier : String) : ℚ :=
  if customer_tier = "BeeBuddy" then 1
  else if customer_tier = "BeeFan" then 1.2
  else if customer_tier = "BeeElite" then 1.5
  else 1

/-- `JollibeeService.calculate_points` (jollibee_service.py lines 99-109). -/
def calculate_points (ot : ℚ) (channel : String) (customer_tier : String) : Int :=
  let base_points : Int :=
    if channel = "dine-in" then pyTrunc (ot / 100) * 10
    else if channel = "app" ∨ channel = "delivery" then pyTrunc (ot / 100) * 15
    else 0
  pyTrunc ((base_points : ℚ) * multipliers customer_tier)

/-- `JollibeeService.check_tier_upgrade` (jollibee_service.py lines 111-118). -/
def check_tier_upgrade (annual_spending : ℚ) : String :=
  if annual_spending ≥ 5000 then "BeeElite"
  else if annual_spending ≥ 2000 then "BeeFan"
  else "BeeBuddy"

/-- The `loyalty_profile` sub-document of a customer. -/
structure LoyaltyProfile where
  tier : String
  total_points : Int
  points_earned_ytd : Int
  points_redeemed_ytd : Int
  annual_spending : ℚ
  last_activity : ℚ
deriving Repr, DecidableEq

/-- A customer document: `loyalty_profile` plus
`purchase_behavior.total_orders`. -/
structure Customer where
  loyalty : LoyaltyProfile
  total_orders : ℕ
deriving Repr, DecidableEq

/-- The part of the single-transaction response that the spec talks about. -/
structure TxnResponse where
  order_total : ℚ
  points_earned : Int
  tier_upgraded : Bool
  new_tier : String
deriving Repr, DecidableEq

/-- The pure state transition of `JollibeeService.create_transaction`
(jollibee_service.py lines 121-189) on an already-fetched customer:
order total, points, tier recomputation and the customer mutation block,
together with the response fields returned on success. -/
def create_transaction_update (c : Customer) (items : List OrderItem)
    (channel : String) (now : ℚ) : Customer × TxnResponse :=
  let ot := order_total items
  let customer_tier := c.loyalty.tier
  let pts := calculate_points ot channel customer_tier
  let new_annual := c.loyalty.annual_spending + ot
  let new_tier := check_tier_upgrade new_annual
  let tier_upgraded : Bool := new_tier != customer_tier
  let c2 : Customer :=
    { loyalty :=
        { tier := new_tier
          total_points := c.loyalty.total_points + pts
          points_earned_ytd := c.loyalty.points_earned_ytd + pts
          points_redeemed_ytd := c.loyalty.points_redeemed_ytd
          annual_spending := new_annual
          last_activity := now }
      total_orders := c.total_orders + 1 }
  (c2,
    { order_total := ot
      points_earned := pts
      tier_upgraded := tier_upgraded
      new_tier := if tier_upgraded then new_tier else customer_tier })

/-- The pure state transition of `JollibeeService.redeem_points`
(jollibee_service.py lines 69-96) on an already-fetched customer:
balance check, then the mutation block.  Returns the success flag and the
customer state that would be written to the store on success. -/
def redeem_points (c : Customer) (points_to_redeem : Int) (now : ℚ) :
    Bool × Customer :=
  if c.loyalty.total_points < points_to_redeem then (false, c)
  else
    (true,
      { loyalty :=
          { c.loyalty with
            total_points := c.loyalty.total_points - points_to_redeem
            points_redeemed_ytd := c.loyalty.points_redeemed_ytd + points_to_redeem
            last_activity := now }
        total_orders := c.total_orders })

/-- One stored-state operation on a customer document: an earn (a completed
transaction, items/channel as in `create_transaction`) or a redemption.
`ok` is whether the write to the document store succeeded; on a failed
write the stored document is unchanged. -/
inductive LoyaltyOp where
  | earn (items : List OrderItem) (channel : String) (ok : Bool)
  | redeem (points_to_redeem : Int) (ok : Bool)
deriving Repr

/-- Effect of one `LoyaltyOp` on the stored customer document. -/
def applyOp (now : ℚ) (c : Customer) : LoyaltyOp → Customer
  | .earn items channel ok =>
      if ok then (create_transaction_update c items channel now).1 else c
  | .redeem pts ok =>
      let r := redeem_points c pts now
      if r.1 ∧ ok then r.2 else c

/-- An earn operation is over a real order: all unit prices nonnegative.
Redemptions carry no extra condition. -/
def opValid : LoyaltyOp → Prop
  | .earn items _ _ => ∀ i ∈ items, 0 ≤ i.price
  | .redeem _ _ => True

/-- An inventory document, with the fields `_prepare_inventory_updates`
reads and writes.  `daily_consumption` is optional because the code reads
it with `.get('daily_consumption', 10)`. -/
structure InventoryItem where
  item_name : String
  current_stock : Int
  reorder_point : Int
  daily_consumption : Option ℚ
  status : String
  predicted_stockout_date : ℚ
  timestamp : ℚ
deriving Repr, DecidableEq

/-- The status classification applied to the new stock level in
`_prepare_inventory_updates` (jollibee_service.py lines 260-269). -/
def inventoryStatus (new_stock : Int) (reorder_point : Int) : String :=
  if (new_stock : ℚ) ≤ (reorder_point : ℚ) * 0.5 then "Critical"
  else if new_stock ≤ reorder_point then "Low"
  else if new_stock ≤ reorder_point * 2 then "Adequate"
  else "Good"

/-- The per-order-line inventory mutation of
`JollibeeService._prepare_inventory_updates` (jollibee_service.py lines
254-276): stock decrement floored at zero, status reclassification, and
the stockout projection (recomputed only when `daily_consumption > 0`;
otherwise the stored `predicted_stockout_date` is left as it was). -/
def updateInventory (inv : InventoryItem) (quantity : Int) (now : ℚ) :
    InventoryItem :=
  let new_stock := max 0 (inv.current_stock - quantity)
  let daily_consumption := inv.daily_consumption.getD 10
  { inv with
    current_stock := new_stock
    timestamp := now
    status := inventoryStatus new_stock inv.reorder_point
    predicted_stockout_date :=
      if daily_consumption > 0 then
        now + max 0 (((new_stock : ℚ) - (inv.reorder_point : ℚ)) / daily_consumption)
      else inv.predicted_stockout_date }

/-- Elasticsearch index names (defaults from config.py). -/
def INDEX_MENU : String := "jollibee-menu"

/-- Customers index name. -/
def INDEX_CUSTOMERS : String := "jollibee-customers"

/-- Transactions index name. -/
def INDEX_TRANSACTIONS : String := "jollibee-transactions"

/-- Inventory index name. -/
def INDEX_INVENTORY : String := "jollibee-inventory"

/-- Stores index name. -/
def INDEX_STORES : String := "jollibee-stores"

/-- A JSON document as an ordered field map (Python dict insertion order);
values are their string renderings, with Python truthiness modelled as
being nonempty. -/
abbrev ESDoc := List (String × String)

/-- Lookup of a field in a document (`field in doc` plus `doc[field]`). -/
def docGet (doc : ESDoc) (field : String) : Option String :=
  (doc.find? (fun kv => kv.1 = field)).map (fun kv => kv.2)

/-- Python truthiness of a (string) field value. -/
def truthy (s : String) : Bool := s ≠ ""

/-- Python `key.endswith('_id')`: the last three characters are `_id`. -/
def endsWith_id (s : String) : Bool := s.data.reverse.take 3 = ['d', 'i', '_']

/-- The per-index id priority table of
`ElasticsearchClient._determine_document_id` (elasticsearch_client.py
lines 158-170), including the `.get` default list. -/
def id_priorities (index_name : String) : List String :=
  if index_name = INDEX_INVENTORY then ["inventory_id", "id"]
  else if index_name = INDEX_CUSTOMERS then ["customer_id", "id"]
  else if index_name = INDEX_TRANSACTIONS then ["transaction_id", "id"]
  else if index_name = INDEX_STORES then ["store_id", "id"]
  else if index_name = INDEX_MENU then ["item_id", "id"]
  else ["id", "item_id", "customer_id", "transaction_id", "inventory_id", "store_id"]

/-- `ElasticsearchClient._determine_document_id` (elasticsearch_client.py
lines 155-184): first truthy field from the priority list, then the
fallback scan over all fields ending in `_id`, else `none` (the caller
`bulk_index` then generates a fresh uuid). -/
def determine_document_id (index_name : String) (doc : ESDoc) : Option String :=
  match (id_priorities index_name).findSome?
      (fun field => (docGet doc field).bind
        (fun v => if truthy v then some v else none)) with
  | some v => some v
  | none => (doc.find? (fun kv => endsWith_id kv.1 && truthy kv.2)).map (fun kv => kv.2)

/-- Stated from the amended claim text for the inventory index: the id is
`inventory_id` when present and truthy, else `id`, else the value of the
first field whose name ends in `_id` and is truthy (which may be
`store_id`), else none and the caller generates a fresh id. -/
def amendedInventoryDocId (doc : ESDoc) : Option String :=
  match (docGet doc "inventory_id").bind
      (fun v => if truthy v then some v else none) with
  | some v => some v
  | none =>
    match (docGet doc "id").bind (fun v => if truthy v then some v else none) with
    | some v => some v
    | none => (doc.find? (fun kv => endsWith_id kv.1 && truthy kv.2)).map (fun kv => kv.2)

/-- The success decision of `JollibeeService._execute_bulk_update`
(jollibee_service.py lines 306-315) after an HTTP 200 response:
`bulk_updates_len` is the length of the NDJSON `bulk_updates` list (the
batch holds one action line plus one source line per document, so this is
twice the number of documents), `item_has_error` has one flag per
document from the bulk response `items`.  Code: `if errors: return
len(errors) < len(bulk_updates) * 0.1 else: return True`. -/
def execute_bulk_update_ok (bulk_updates_len : ℕ) (item_has_error : List Bool) : Bool :=
  let errors := (item_has_error.filter (fun b => b)).length
  if errors ≠ 0 then decide ((errors : ℚ) < (bulk_updates_len : ℚ) * 0.1)
  else true

/-- The success decision of `ElasticsearchClient.bulk_index`
(elasticsearch_client.py lines 138-149) after an HTTP 200 response:
`num_documents` is `len(documents)`.  Code: `return len(errors) <
len(documents) * 0.1` when there are errors, else True. -/
def bulk_index_ok (num_documents : ℕ) (item_has_error : List Bool) : Bool :=
  let errors := (item_has_error.filter (fun b => b)).length
  if errors ≠ 0 then decide ((errors : ℚ) < (num_documents : ℚ) * 0.1)
  else true

/-- One request of `create_bulk_transactions`: the fields the orchestrator
reads (`payment_method` has no effect on the accumulated state). -/
structure TxnRequest where
  customer_id : String
  items : List OrderItem
  channel : String
  store_id : String
deriving Repr

/-- One accumulated transaction record (the fields the claims are about). -/
structure TxnRecord where
  customer_id : String
  order_total : ℚ
  points_earned : Int
deriving Repr, DecidableEq

/-- The in-memory accumulation state of
`JollibeeService.create_bulk_transactions` (jollibee_service.py lines
325-449): `data` is the fetched customer map mutated in place
(`customers_data`), `touched` the insertion-ordered key set of
`all_customers`, `transactions` the `all_transactions` list, and
`total_revenue` the running revenue sum. -/
structure BulkState where
  data : String → Option Customer
  touched : List String
  transactions : List TxnRecord
  total_revenue : ℚ

/-- Processing of one request inside the `for req in transaction_requests`
loop (jollibee_service.py lines 346-405): a request whose customer is not
in the fetched map is skipped (`continue`); otherwise the same
compute/mutate block as the single-transaction path runs against the
in-memory customer state and the results are accumulated. -/
def processRequest (now : ℚ) (st : BulkState) (req : TxnRequest) : BulkState :=
  match st.data req.customer_id with
  | none => st
  | some customer =>
      let ot := order_total req.items
      let pts := calculate_points ot req.channel customer.loyalty.tier
      let c2 := (create_transaction_update customer req.items req.channel now).1
      { data := fun id => if id = req.customer_id then some c2 else st.data id
        touched :=
          if req.customer_id ∈ st.touched then st.touched
          else st.touched ++ [req.customer_id]
        transactions := st.transactions ++ [⟨req.customer_id, ot, pts⟩]
        total_revenue := st.total_revenue + ot }

/-- `JollibeeService.create_bulk_transactions`: fold of the request loop
over the batch-fetched customer map. -/
def create_bulk_transactions (now : ℚ) (init : String → Option Customer)
    (reqs : List TxnRequest) : BulkState :=
  reqs.foldl (processRequest now) ⟨init, [], [], 0⟩

/-- The effect of one request on a single customer's in-memory state
(used to state the cumulative-in-request-order property). -/
def stepCustomer (now : ℚ) (oc : Option Customer) (req : TxnRequest) :
    Option Customer :=
  match oc with
  | none => none
  | some c => some ((create_transaction_update c req.items req.channel now).1)

/-- The customers index of the document store, as seen by the web routes. -/
structure ESStore where
  customers : String → Option Customer

/-- Result of a web route: HTTP status, success flag, the store state
afterwards, and how many document reads (GET/search round trips) and
writes (PUT/bulk round trips) the request performed. -/
structure RouteResult where
  status : ℕ
  success : Bool
  store : ESStore
  reads : ℕ
  writes : ℕ

/-- The `/api/customers/<id>/redeem` route (app.py lines 93-118) composed
with `JollibeeService.redeem_points`: the `points <= 0` validation guard
runs before the service is invoked; the service then fetches the customer
(one read), checks the balance, and on success issues one document write
(`writeOk` is its outcome). -/
def redeem_points_route (store : ESStore) (customer_id : String)
    (points_to_redeem : Int) ( _item_name : String) (now : ℚ)
    (writeOk : Bool) : RouteResult :=
  if points_to_redeem ≤ 0 then ⟨400, false, store, 0, 0⟩
  else
    match store.customers customer_id with
    | none => ⟨400, false, store, 1, 0⟩
    | some c =>
        let r := redeem_points c points_to_redeem now
        if r.1 then
          if writeOk then
            ⟨200, true,
              ⟨fun id => if id = customer_id then some r.2 else store.customers id⟩,
              1, 1⟩
          else ⟨400, false, store, 1, 1⟩
        else ⟨400, false, store, 1, 0⟩

/-- The `/api/transactions` route (app.py lines 120-151) composed with
`JollibeeService.create_transaction`: the `not customer_id or not items`
validation guard runs before the service is invoked; the service then
fetches the customer (one read), runs one inventory search per order line,
and submits one bulk write (`bulkOk` is its outcome). -/
def create_transaction_route (store : ESStore) (customer_id : String)
    (items : List OrderItem) (channel : String) (now : ℚ)
    (bulkOk : Bool) : RouteResult :=
  if customer_id = "" ∨ items = [] then ⟨400, false, store, 0, 0⟩
  else
    match store.customers customer_id with
    | none => ⟨500, false, store, 1, 0⟩
    | some c =>
        let c2 := (create_transaction_update c items channel now).1
        if bulkOk then
          ⟨200, true,
            ⟨fun id => if id = customer_id then some c2 else store.customers id⟩,
            1 + items.length, 1⟩
        else ⟨500, false, store, 1 + items.length, 1⟩

/-- A sample customer document (tier Buddy, 50 points, no spending yet). -/
def custExample : Customer := ⟨⟨"BeeBuddy", 50, 0, 0, 0, 0⟩, 0⟩

/-- A sample inventory document: stock 20, reorder point 30. -/
def invExample : InventoryItem := ⟨"Chickenjoy", 20, 30, some 10, "Low", 0, 0⟩

theorem pyTrunc_eq_floor {q : ℚ} (h : 0 ≤ q) : pyTrunc q = ⌊q⌋ := if_pos h

theorem pyTrunc_nonneg {q : ℚ} (h : 0 ≤ q) : 0 ≤ pyTrunc q := by
  rw [pyTrunc_eq_floor h]; exact Int.floor_nonneg.mpr h

theorem multipliers_nonneg (t : String) : 0 ≤ multipliers t := by
  unfold multipliers; split_ifs <;> norm_num

theorem order_total_cons (a : OrderItem) (l : List OrderItem) :
    order_total (a :: l) = a.price * (a.quantity : ℚ) + order_total l := by
  simp [order_total]

theorem order_total_nonneg :
    ∀ {items : List OrderItem}, (∀ i ∈ items, 0 ≤ i.price) → 0 ≤ order_total items := by
  intro items
  induction items with
  | nil => intro _; simp [order_total]
  | cons a l ih =>
      intro h
      have ha : 0 ≤ a.price * (a.quantity : ℚ) :=
        mul_nonneg (h a (by simp)) (by positivity)
      have hl := ih (fun i hi => h i (by simp [hi]))
      rw [order_total_cons]
      linarith

theorem calculate_points_eq (ot : ℚ) (hot : 0 ≤ ot) (channel customer_tier : String)
    (hch : channel = "dine-in" ∨ channel = "app" ∨ channel = "delivery") :
    calculate_points ot channel customer_tier
      = ⌊((⌊ot / 100⌋ * (if channel = "dine-in" then 10 else 15) : Int) : ℚ)
          * multipliers customer_tier⌋ := by
  have hdiv : (0:ℚ) ≤ ot / 100 := by positivity
  have hfl : (0:ℚ) ≤ ((⌊ot / 100⌋ : Int) : ℚ) := by
    exact_mod_cast Int.floor_nonneg.mpr hdiv
  have hm := multipliers_nonneg customer_tier
  rcases hch with h | h | h <;> subst h <;>
    simp [calculate_points, pyTrunc_eq_floor hdiv] <;>
    apply pyTrunc_eq_floor <;>
    nlinarith [mul_nonneg (mul_nonneg hfl (by norm_num : (0:ℚ) ≤ 10)) hm,
      mul_nonneg (mul_nonneg hfl (by norm_num : (0:ℚ) ≤ 15)) hm]

/-- C3: for an order with nonnegative unit prices on a recognised channel
and tier, the order total is the sum of price times quantity, base points
are floor(order_total / 100) times the channel rate (10 dine-in, 15
app/delivery), points earned are the floor of base points times the tier
multiplier (Buddy 1.0, Fan 1.2, Elite 1.5); a 450 peso dine-in order by a
BeeBuddy customer yields order_total 450 and 40 points. -/
theorem claim_C3_points (items : List OrderItem) (channel customer_tier : String)
    (hp : ∀ i ∈ items, 0 ≤ i.price)
    (hch : channel = "dine-in" ∨ channel = "app" ∨ channel = "delivery")
    (ht : customer_tier = "BeeBuddy" ∨ customer_tier = "BeeFan" ∨ customer_tier = "BeeElite") :
    order_total items = (items.map (fun i => i.price * (i.quantity : ℚ))).sum
    ∧ calculate_points (order_total items) channel customer_tier
        = ⌊((⌊order_total items / 100⌋ * (if channel = "dine-in" then 10 else 15) : Int) : ℚ)
            * (if customer_tier = "BeeBuddy" then 1
               else if customer_tier = "BeeFan" then 1.2 else 1.5)⌋
    ∧ order_total [⟨"order", 450, 1⟩] = 450
    ∧ calculate_points 450 "dine-in" "BeeBuddy" = 40 := by
  refine ⟨rfl, ?_, by norm_num [order_total],
    by norm_num [calculate_points, pyTrunc, multipliers]⟩
  rw [calculate_points_eq _ (order_total_nonneg hp) _ _ hch]
  rcases ht with h | h | h <;> subst h <;> simp [multipliers]

/-- C3 witness: the 450 peso dine-in BeeBuddy example instantiating the
pricing theorem. -/
theorem claim_C3_witness : calculate_points 450 "dine-in" "BeeBuddy" = 40 :=
  (claim_C3_points [⟨"order", 450, 1⟩] "dine-in" "BeeBuddy"
    (by simp) (Or.inl rfl) (Or.inl rfl)).2.2.2

/-- C4: after a single transaction the stored tier is the threshold
function applied to annual_spending_before plus order_total, recomputed on
the transaction itself, and the tier_upgraded response flag is true exactly
when that recomputed tier differs from the pre-transaction tier. -/
theorem claim_C4_tier (c : Customer) (items : List OrderItem)
    (channel : String) (now : ℚ) :
    (create_transaction_update c items channel now).1.loyalty.tier
      = check_tier_upgrade (c.loyalty.annual_spending + order_total items)
    ∧ ((create_transaction_update c items channel now).2.tier_upgraded = true
      ↔ check_tier_upgrade (c.loyalty.annual_spending + order_total items)
          ≠ c.loyalty.tier) := by
  constructor
  · rfl
  · simp [create_transaction_update]

/-- C4 witness: a 2100 peso order moving a fresh BeeBuddy customer to the
recomputed tier of its new annual spending. -/
theorem claim_C4_witness :
    (create_transaction_update custExample [⟨"Family Bucket", 2100, 1⟩] "dine-in" 0).1.loyalty.tier
      = check_tier_upgrade (custExample.loyalty.annual_spending
          + order_total [⟨"Family Bucket", 2100, 1⟩]) :=
  (claim_C4_tier custExample [⟨"Family Bucket", 2100, 1⟩] "dine-in" 0).1

theorem calculate_points_other (ot : ℚ) (channel customer_tier : String)
    (h1 : channel ≠ "dine-in") (h2 : channel ≠ "app") (h3 : channel ≠ "delivery") :
    calculate_points ot channel customer_tier = 0 := by
  unfold calculate_points
  rw [if_neg h1, if_neg (by simp [h2, h3])]
  simp [pyTrunc]

/-- C10: on an unrecognised channel calculate_points is 0 for every total
and tier, an unrecognised tier string gets the default 1.0 multiplier, and
a transaction on an unrecognised channel earns zero points while still
adding the order total to annual_spending, incrementing total_orders, and
recomputing (possibly changing) the tier. -/
theorem claim_C10_unknown_channel (c : Customer) (items : List OrderItem)
    (channel customer_tier : String) (ot now : ℚ)
    (hch : channel ≠ "dine-in" ∧ channel ≠ "app" ∧ channel ≠ "delivery") :
    calculate_points ot channel customer_tier = 0
    ∧ (customer_tier ∉ ["BeeBuddy", "BeeFan", "BeeElite"] → multipliers customer_tier = 1)
    ∧ (create_transaction_update c items channel now).2.points_earned = 0
    ∧ (create_transaction_update c items channel now).1.loyalty.total_points
        = c.loyalty.total_points
    ∧ (create_transaction_update c items channel now).1.loyalty.annual_spending
        = c.loyalty.annual_spending + order_total items
    ∧ (create_transaction_update c items channel now).1.total_orders = c.total_orders + 1
    ∧ (create_transaction_update c items channel now).1.loyalty.tier
        = check_tier_upgrade (c.loyalty.annual_spending + order_total items)
    ∧ (create_transaction_update custExample [⟨"Family Bucket", 2100, 1⟩] "pickup" 0).1.loyalty.tier
        = "BeeFan" := by
  obtain ⟨h1, h2, h3⟩ := hch
  have hz := calculate_points_other (order_total items) channel c.loyalty.tier h1 h2 h3
  refine ⟨calculate_points_other ot channel customer_tier h1 h2 h3, ?_, ?_, ?_, rfl, rfl, rfl,
    by norm_num [create_transaction_update, custExample, order_total,
      check_tier_upgrade, calculate_points, pyTrunc, multipliers]⟩
  · intro ht
    unfold multipliers
    rw [if_neg (by simp_all), if_neg (by simp_all), if_neg (by simp_all)]
  · simpa [create_transaction_update] using hz
  · simp [create_transaction_update, hz]

/-- C10 witness: an unrecognised channel yields zero points at a concrete
input. -/
theorem claim_C10_witness : calculate_points 450 "pickup" "BeeElite" = 0 :=
  (claim_C10_unknown_channel custExample [] "pickup" "BeeElite" 450 0 (by decide)).1

theorem calculate_points_nonneg (ot : ℚ) (hot : 0 ≤ ot)
    (channel customer_tier : String) :
    0 ≤ calculate_points ot channel customer_tier := by
  have hdiv : (0:ℚ) ≤ ot / 100 := by positivity
  have hb : (0:ℤ) ≤ (if channel = "dine-in" then pyTrunc (ot / 100) * 10
      else if channel = "app" ∨ channel = "delivery" then pyTrunc (ot / 100) * 15
      else 0) := by
    split_ifs with h1 h2
    · exact mul_nonneg (pyTrunc_nonneg hdiv) (by norm_num)
    · exact mul_nonneg (pyTrunc_nonneg hdiv) (by norm_num)
    · exact le_refl 0
  simp only [calculate_points]
  exact pyTrunc_nonneg (mul_nonneg (by exact_mod_cast hb) (multipliers_nonneg _))

theorem applyOp_total_points_nonneg (now : ℚ) (c : Customer) (op : LoyaltyOp)
    (h0 : 0 ≤ c.loyalty.total_points) (hv : opValid op) :
    0 ≤ (applyOp now c op).loyalty.total_points := by
  cases op with
  | earn items channel ok =>
      cases ok with
      | false => simpa [applyOp] using h0
      | true =>
          have hot := order_total_nonneg hv
          have hp := calculate_points_nonneg _ hot channel c.loyalty.tier
          simp only [applyOp, if_true, create_transaction_update]
          exact add_nonneg h0 hp
  | redeem pts ok =>
      by_cases hb : c.loyalty.total_points < pts
      · simpa [applyOp, redeem_points, hb] using h0
      · cases ok with
        | false => simpa [applyOp, redeem_points, hb] using h0
        | true =>
            simp only [applyOp, redeem_points, if_neg hb]
            simpa using sub_nonneg.mpr (not_lt.mp hb)

theorem foldl_applyOp_nonneg (now : ℚ) :
    ∀ (ops : List LoyaltyOp) (c : Customer), 0 ≤ c.loyalty.total_points →
      (∀ op ∈ ops, opValid op) →
      0 ≤ (ops.foldl (applyOp now) c).loyalty.total_points := by
  intro ops
  induction ops with
  | nil => intro c h0 _; simpa using h0
  | cons op l ih =>
      intro c h0 hv
      simp only [List.foldl_cons]
      exact ih _ (applyOp_total_points_nonneg now c op h0 (hv op (by simp)))
        (fun o ho => hv o (by simp [ho]))

/-- C2: a redemption request for more than the current total_points fails
with the stored state unchanged; an affordable redemption decreases
total_points by exactly the redeemed amount and increases
points_redeemed_ytd by the same amount; and across any sequence of earn
and redeem operations from a nonnegative balance total_points never goes
negative. -/
theorem claim_C2_redemption (c : Customer) (pts : Int) (now : ℚ) :
    (c.loyalty.total_points < pts →
      (redeem_points c pts now).1 = false ∧ (redeem_points c pts now).2 = c)
    ∧ (pts ≤ c.loyalty.total_points →
      (redeem_points c pts now).1 = true
      ∧ (redeem_points c pts now).2.loyalty.total_points
          = c.loyalty.total_points - pts
      ∧ (redeem_points c pts now).2.loyalty.points_redeemed_ytd
          = c.loyalty.points_redeemed_ytd + pts)
    ∧ (∀ ops : List LoyaltyOp, 0 ≤ c.loyalty.total_points →
        (∀ op ∈ ops, opValid op) →
        0 ≤ (ops.foldl (applyOp now) c).loyalty.total_points) := by
  refine ⟨?_, ?_, fun ops h0 hv => foldl_applyOp_nonneg now ops c h0 hv⟩
  · intro h
    simp [redeem_points, h]
  · intro h
    simp [redeem_points, not_lt.mpr h]

/-- C2 witness: a customer holding 50 points cannot redeem 100, and the
document is unchanged. -/
theorem claim_C2_witness :
    (redeem_points custExample 100 0).1 = false
    ∧ (redeem_points custExample 100 0).2 = custExample :=
  (claim_C2_redemption custExample 100 0).1 (by decide)

theorem foldl_updateInventory_nonneg (now : ℚ) :
    ∀ (qs : List Int) (inv : InventoryItem), 0 ≤ inv.current_stock →
      0 ≤ (qs.foldl (fun i p => updateInventory i p now) inv).current_stock := by
  intro qs
  induction qs with
  | nil => intro inv h; simpa using h
  | cons q l ih =>
      intro inv h
      simp only [List.foldl_cons]
      exact ih _ (by simp only [updateInventory]; exact le_max_left 0 _)

/-- C5: an inventory decrement sets current_stock to max(0, old − q), so
stock is nonnegative after any decrement sequence, and the recomputed
status is the pure threshold classification of the new stock against
reorder_point (Critical at or below half the reorder point, Low at or
below it, Adequate at or below twice it, else Good); stock 20 with
reorder point 30 classifies Low, and consuming 25 units floors the stock
at 0 with status Critical. -/
theorem claim_C5_inventory (inv : InventoryItem) (q : Int) (now : ℚ)
    (h0 : 0 ≤ inv.current_stock) :
    (updateInventory inv q now).current_stock = max 0 (inv.current_stock - q)
    ∧ 0 ≤ (updateInventory inv q now).current_stock
    ∧ (∀ qs : List Int,
        0 ≤ (qs.foldl (fun i p => updateInventory i p now) inv).current_stock)
    ∧ (updateInventory inv q now).status
        = inventoryStatus (max 0 (inv.current_stock - q)) inv.reorder_point
    ∧ (∀ n rp : Int,
        ((n : ℚ) ≤ (rp : ℚ) * 0.5 → inventoryStatus n rp = "Critical")
        ∧ (¬ (n : ℚ) ≤ (rp : ℚ) * 0.5 → n ≤ rp → inventoryStatus n rp = "Low")
        ∧ (¬ (n : ℚ) ≤ (rp : ℚ) * 0.5 → ¬ n ≤ rp → n ≤ rp * 2 →
            inventoryStatus n rp = "Adequate")
        ∧ (¬ (n : ℚ) ≤ (rp : ℚ) * 0.5 → ¬ n ≤ rp → ¬ n ≤ rp * 2 →
            inventoryStatus n rp = "Good"))
    ∧ inventoryStatus 20 30 = "Low"
    ∧ (updateInventory invExample 25 now).current_stock = 0
    ∧ (updateInventory invExample 25 now).status = "Critical" := by
  refine ⟨rfl, le_max_left 0 _, fun qs => foldl_updateInventory_nonneg now qs inv h0,
    rfl, ?_, by norm_num [inventoryStatus],
    by show (max 0 (20 - 25 : Int)) = 0; decide, ?_⟩
  · intro n rp
    unfold inventoryStatus
    refine ⟨fun h1 => by rw [if_pos h1],
      fun h1 h2 => by rw [if_neg h1, if_pos h2],
      fun h1 h2 h3 => by rw [if_neg h1, if_neg h2, if_pos h3],
      fun h1 h2 h3 => by rw [if_neg h1, if_neg h2, if_neg h3]⟩
  · show inventoryStatus (max 0 (20 - 25)) 30 = "Critical"
    norm_num [inventoryStatus]

/-- C5 witness: the stock-20 reorder-30 example consuming 25 units. -/
theorem claim_C5_witness :
    0 ≤ (updateInventory invExample 25 0).current_stock :=
  (claim_C5_inventory invExample 25 0 (by decide)).2.1

/-- A sample inventory document whose daily_consumption is 0. -/
def invNoConsumption : InventoryItem := ⟨"Jolly Spaghetti", 50, 10, some 0, "Good", 0, 0⟩

/-- C7 counterexample: on a decrement of an item whose daily_consumption
is 0 the code leaves predicted_stockout_date at its old value (0 here)
instead of setting it to the claimed fixed 30-day default (now + 30 = 130
at now = 100). -/
theorem claim_C7_counterexample :
    (updateInventory invNoConsumption 5 100).predicted_stockout_date = 0
    ∧ (updateInventory invNoConsumption 5 100).predicted_stockout_date ≠ 100 + 30 := by
  norm_num [updateInventory, invNoConsumption]

/-- C7 (amended): on every inventory decrement, when daily_consumption
(defaulting to 10 when the field is absent) is positive,
predicted_stockout_date is recomputed as now plus
max(0, (new current_stock − reorder_point) / daily_consumption) days;
otherwise it is left unchanged. -/
theorem claim_C7_stockout (inv : InventoryItem) (q : Int) (now : ℚ) :
    (0 < inv.daily_consumption.getD 10 →
      (updateInventory inv q now).predicted_stockout_date
        = now + max 0 ((((max 0 (inv.current_stock - q) : Int) : ℚ)
            - (inv.reorder_point : ℚ)) / inv.daily_consumption.getD 10))
    ∧ (¬ 0 < inv.daily_consumption.getD 10 →
      (updateInventory inv q now).predicted_stockout_date
        = inv.predicted_stockout_date) := by
  constructor <;> intro h <;> simp [updateInventory, h]

/-- C7 witness: the stock-20 reorder-30 consumption-10 example, where the
projection is clamped at zero days. -/
theorem claim_C7_witness :
    (updateInventory invExample 25 0).predicted_stockout_date = 0 := by
  have h := (claim_C7_stockout invExample 25 0).1 (by norm_num [invExample])
  rw [h]
  norm_num [invExample]

/-- A document carrying only a store id and an item name. -/
def docOnlyStoreId : ESDoc := [("store_id", "store_001"), ("item_name", "Burger Steak")]

/-- A second document for the same store but a different item. -/
def docOnlyStoreId2 : ESDoc := [("store_id", "store_001"), ("item_name", "Chickenjoy")]

/-- C8 counterexample: bulk-indexing into the inventory index a document
that has neither inventory_id nor id derives the document id through the
`_id`-suffix fallback, which returns the store id, so two distinct items
of the same store collide onto one document id. -/
theorem claim_C8_counterexample :
    determine_document_id INDEX_INVENTORY docOnlyStoreId = some "store_001"
    ∧ determine_document_id INDEX_INVENTORY docOnlyStoreId2 = some "store_001"
    ∧ docOnlyStoreId ≠ docOnlyStoreId2 := by
  refine ⟨?_, ?_, by decide⟩ <;> decide

/-- C8 (amended): for the inventory index the derived document id is
inventory_id when present and truthy, else id, else the value of the
first field whose name ends in `_id` and is truthy (which may be the
store id), else none, in which case the caller generates a fresh id. -/
theorem claim_C8_document_id (doc : ESDoc) :
    determine_document_id INDEX_INVENTORY doc = amendedInventoryDocId doc := by
  have hp : id_priorities INDEX_INVENTORY = ["inventory_id", "id"] := rfl
  unfold determine_document_id amendedInventoryDocId
  rw [hp]
  rcases h1 : (docGet doc "inventory_id").bind
      (fun v => if truthy v then some v else none) with _ | v
  · simp only [List.findSome?_cons, h1]
    rcases h2 : (docGet doc "id").bind
        (fun v => if truthy v then some v else none) with _ | w
    · simp only [List.findSome?_nil, h2]
    · simp only [List.findSome?_nil, h2]
  · simp only [List.findSome?_cons, h1]

/-- C1 (code bug): in a bulk batch of 10 documents the NDJSON bulk_updates
list has 20 entries, so with exactly 1 failing document — 10% of the
documents, which the 10%-tolerance contract requires to be reported as
overall failure — `_execute_bulk_update` still reports success, because it
compares the error count against 10% of the 20 NDJSON lines instead of
10% of the 10 documents; `bulk_index`, which compares against the
document count, reports failure on the same input. -/
theorem claim_C1_bulk_tolerance :
    execute_bulk_update_ok 20
      [true, false, false, false, false, false, false, false, false, false] = true
    ∧ ¬ ((([true, false, false, false, false, false, false, false, false,
          false].filter (fun b => b)).length : ℚ) < ((10 : ℕ) : ℚ) * 0.1)
    ∧ bulk_index_ok 10
      [true, false, false, false, false, false, false, false, false, false] = false := by
  refine ⟨?_, by norm_num, ?_⟩ <;> norm_num [execute_bulk_update_ok, bulk_index_ok]

/-- C9: a redemption request with a non-positive points amount, and a
transaction request with an empty item list, are rejected with a 400
validation error before any document read: no reads, no writes, store
unchanged. -/
theorem claim_C9_validation (store : ESStore) (customer_id item_name channel : String)
    (points_to_redeem : Int) (now : ℚ) (ok : Bool) :
    (points_to_redeem ≤ 0 →
      redeem_points_route store customer_id points_to_redeem item_name now ok
        = ⟨400, false, store, 0, 0⟩)
    ∧ create_transaction_route store customer_id [] channel now ok
        = ⟨400, false, store, 0, 0⟩ := by
  constructor
  · intro h
    simp [redeem_points_route, h]
  · simp [create_transaction_route]

/-- C9 witness: a zero-point redemption and an empty-item transaction are
both rejected without touching an empty store. -/
theorem claim_C9_witness :
    redeem_points_route ⟨fun _ => none⟩ "cust_001" 0 "Peach Mango Pie" 0 true
      = ⟨400, false, ⟨fun _ => none⟩, 0, 0⟩
    ∧ create_transaction_route ⟨fun _ => none⟩ "cust_001" [] "dine-in" 0 true
      = ⟨400, false, ⟨fun _ => none⟩, 0, 0⟩ := by
  have h := claim_C9_validation ⟨fun _ => none⟩ "cust_001" "Peach Mango Pie"
    "dine-in" 0 0 true
  exact ⟨h.1 le_rfl, h.2⟩

theorem processRequest_data_other (now : ℚ) (st : BulkState) (req : TxnRequest)
    (id : String) (h : id ≠ req.customer_id) :
    (processRequest now st req).data id = st.data id := by
  unfold processRequest
  cases hm : st.data req.customer_id with
  | none => rfl
  | some c => simp [h]

theorem processRequest_data_self (now : ℚ) (st : BulkState) (req : TxnRequest) :
    (processRequest now st req).data req.customer_id
      = stepCustomer now (st.data req.customer_id) req := by
  unfold processRequest stepCustomer
  cases hm : st.data req.customer_id with
  | none => simpa using hm
  | some c => simp

theorem processRequest_some (now : ℚ) (st : BulkState) (req : TxnRequest)
    (c : Customer) (hc : st.data req.customer_id = some c) :
    (processRequest now st req).transactions = st.transactions
        ++ [⟨req.customer_id, order_total req.items,
             calculate_points (order_total req.items) req.channel c.loyalty.tier⟩]
    ∧ (processRequest now st req).total_revenue
        = st.total_revenue + order_total req.items
    ∧ (processRequest now st req).touched
        = (if req.customer_id ∈ st.touched then st.touched
           else st.touched ++ [req.customer_id]) := by
  unfold processRequest
  rw [hc]
  exact ⟨rfl, rfl, rfl⟩

theorem processRequest_preserves_isSome (now : ℚ) (st : BulkState)
    (req : TxnRequest) (k : String) (h : (st.data k).isSome = true) :
    ((processRequest now st req).data k).isSome = true := by
  by_cases he : k = req.customer_id
  · subst he
    rw [processRequest_data_self]
    cases hm : st.data req.customer_id with
    | none => rw [hm] at h; simp at h
    | some c => simp [stepCustomer, hm]
  · rw [processRequest_data_other now st req k he]
    exact h

theorem bulk_fold_data (now : ℚ) :
    ∀ (reqs : List TxnRequest) (st : BulkState) (cid : String),
      (reqs.foldl (processRequest now) st).data cid
        = (reqs.filter (fun r => r.customer_id = cid)).foldl
            (stepCustomer now) (st.data cid) := by
  intro reqs
  induction reqs with
  | nil => intro st cid; rfl
  | cons r l ih =>
      intro st cid
      simp only [List.foldl_cons]
      rw [ih]
      by_cases h : r.customer_id = cid
      · subst h
        rw [processRequest_data_self]
        simp [List.filter_cons]
      · rw [processRequest_data_other now st r cid (fun e => h e.symm)]
        simp [List.filter_cons, h]

theorem bulk_fold_counts (now : ℚ) :
    ∀ (reqs : List TxnRequest) (st : BulkState),
      (∀ r ∈ reqs, (st.data r.customer_id).isSome = true) →
      (reqs.foldl (processRequest now) st).transactions.length
          = st.transactions.length + reqs.length
      ∧ (reqs.foldl (processRequest now) st).total_revenue
          = st.total_revenue + (reqs.map (fun r => order_total r.items)).sum := by
  intro reqs
  induction reqs with
  | nil => intro st _; simp
  | cons r l ih =>
      intro st h
      obtain ⟨c, hc⟩ := Option.isSome_iff_exists.mp (h r (by simp))
      have hstep : ∀ r2 ∈ l, ((processRequest now st r).data r2.customer_id).isSome = true :=
        fun r2 hr2 => processRequest_preserves_isSome now st r _ (h r2 (by simp [hr2]))
      have hr := ih (processRequest now st r) hstep
      have hp := processRequest_some now st r c hc
      constructor
      · rw [List.foldl_cons, hr.1, hp.1]
        simp only [List.length_append, List.length_cons, List.length_nil]
        omega
      · rw [List.foldl_cons, hr.2, hp.2.1]
        simp only [List.map_cons, List.sum_cons]
        ring

theorem bulk_fold_touched (now : ℚ) :
    ∀ (reqs : List TxnRequest) (st : BulkState),
      (∀ r ∈ reqs, (st.data r.customer_id).isSome = true) →
      (st.touched.Nodup → (reqs.foldl (processRequest now) st).touched.Nodup)
      ∧ (reqs.foldl (processRequest now) st).touched.toFinset
          = st.touched.toFinset ∪ (reqs.map (fun r => r.customer_id)).toFinset := by
  intro reqs
  induction reqs with
  | nil => intro st _; exact ⟨fun h => h, by simp⟩
  | cons r l ih =>
      intro st h
      obtain ⟨c, hc⟩ := Option.isSome_iff_exists.mp (h r (by simp))
      have hstep : ∀ r2 ∈ l, ((processRequest now st r).data r2.customer_id).isSome = true :=
        fun r2 hr2 => processRequest_preserves_isSome now st r _ (h r2 (by simp [hr2]))
      have hr := ih (processRequest now st r) hstep
      have ht := (processRequest_some now st r c hc).2.2
      constructor
      · intro hnd
        apply hr.1
        rw [ht]
        by_cases hmem : r.customer_id ∈ st.touched
        · simpa [hmem] using hnd
        · simp [hmem, List.nodup_append, hnd]
      · rw [List.foldl_cons, hr.2, ht]
        by_cases hmem : r.customer_id ∈ st.touched
        · have hm2 : r.customer_id ∈ st.touched.toFinset := List.mem_toFinset.mpr hmem
          rw [if_pos hmem, List.map_cons, List.toFinset_cons, Finset.union_insert,
            Finset.insert_eq_self.mpr (Finset.mem_union_left _ hm2)]
        · rw [if_neg hmem, List.toFinset_append, List.map_cons, List.toFinset_cons,
            Finset.union_assoc]
          congr 1
          ext x
          simp

/-- C6: when every requested customer is present in the batch-fetched map,
the bulk simulation accumulates exactly one transaction record per request
and exactly one mutated customer document per distinct customer id, the
reported totals match (transactions_created is the request count,
total_revenue the sum of the order totals), and each customer's
accumulated state is the fold of exactly its own requests, in
request-array order, over its fetched state. -/
theorem claim_C6_bulk (now : ℚ) (init : String → Option Customer)
    (reqs : List TxnRequest)
    (hfound : ∀ req ∈ reqs, (init req.customer_id).isSome = true) :
    (create_bulk_transactions now init reqs).transactions.length = reqs.length
    ∧ (create_bulk_transactions now init reqs).total_revenue
        = (reqs.map (fun r => order_total r.items)).sum
    ∧ (create_bulk_transactions now init reqs).touched.Nodup
    ∧ (create_bulk_transactions now init reqs).touched.toFinset
        = (reqs.map (fun r => r.customer_id)).toFinset
    ∧ ∀ cid : String, (create_bulk_transactions now init reqs).data cid
        = (reqs.filter (fun r => r.customer_id = cid)).foldl
            (stepCustomer now) (init cid) := by
  have hcounts := bulk_fold_counts now reqs ⟨init, [], [], 0⟩ hfound
  have htouch := bulk_fold_touched now reqs ⟨init, [], [], 0⟩ hfound
  exact ⟨by simpa using hcounts.1, by simpa using hcounts.2,
    htouch.1 (by simp), by simpa using htouch.2,
    fun cid => bulk_fold_data now reqs ⟨init, [], [], 0⟩ cid⟩

/-- The batch-fetched customer map of the witness scenario. -/
def initW : String → Option Customer :=
  fun k => if k = "cust_001" then some custExample else none

/-- First witness request. -/
def reqW1 : TxnRequest := ⟨"cust_001", [⟨"Chickenjoy", 450, 1⟩], "dine-in", "store_001"⟩

/-- Second witness request, same customer. -/
def reqW2 : TxnRequest := ⟨"cust_001", [⟨"Jolly Spaghetti", 100, 2⟩], "app", "store_001"⟩

/-- C6 witness: two requests for one customer produce two transaction
records. -/
theorem claim_C6_witness :
    (create_bulk_transactions 0 initW [reqW1, reqW2]).transactions.length = 2 :=
  (claim_C6_bulk 0 initW [reqW1, reqW2] (by decide)).1

/-- C8 witness: the amended derivation instantiated at a document carrying
a dedicated inventory identifier. -/
theorem claim_C8_witness :
    determine_document_id INDEX_INVENTORY [("inventory_id", "inv_042")]
      = amendedInventoryDocId [("inventory_id", "inv_042")] :=
  claim_C8_document_id [("inventory_id", "inv_042")]
